import Mathlib

/-!
Verification of the Google GenAI manifold pipeline
(`examples/pipelines/providers/google_manifold_pipeline.py`).

The Python source is shallowly embedded: Python strings become `String`,
Python numbers passed through verbatim become `ℚ`, dict-shaped messages
become structures, the external `google.genai` SDK objects become plain
data (`Part`, `Content`, chunks), and a Python exception in a modelled
operation becomes `Except.error`.  The provider itself is a parameter
(`Provider`): its two calls either return a value or raise.
-/

namespace GoogleManifold

/-! ## Python string primitives

Python string operations are modelled over the character list of the
string, so that every definition reduces in the kernel.  Python indexes
strings by code point, which matches `String.data`. -/

/-- Python `s.startswith(pre)`. -/
def startswith (s pre : String) : Bool :=
  pre.data.isPrefixOf s.data

/-- Python `s[n:]` (drop the first `n` code points). -/
def pyDrop (s : String) (n : Nat) : String :=
  String.mk (s.data.drop n)

/-- Python `s[:n]` (take the first `n` code points). -/
def pyTake (s : String) (n : Nat) : String :=
  String.mk (s.data.take n)

/-- Python `s.lstrip(".")`: remove every leading `.` character. -/
def lstripDot (s : String) : String :=
  String.mk (s.data.dropWhile (fun c => c = '.'))

/-- Core of Python `s.split(sep)` for a one-character separator, on
character lists.  Python yields `[""]` on the empty string and keeps
empty fields between adjacent separators. -/
def pySplitChar (sep : Char) : List Char → List (List Char)
  | [] => [[]]
  | c :: rest =>
      let r := pySplitChar sep rest
      if c = sep then [] :: r
      else
        match r with
        | [] => [[c]]
        | g :: gs => (c :: g) :: gs

/-- Python `s.split(",")`. -/
def pySplitComma (s : String) : List String :=
  (pySplitChar ',' s.data).map String.mk

/-! ## Data model -/

/-- Provider part shapes, as constructed by the source: `types.Part.from_text`
and `types.Part.from_uri` (the latter with or without a `mime_type`
keyword). -/
inductive Part where
  | from_text (text : String)
  | from_uri (file_uri : String) (mime_type : Option String)
deriving DecidableEq

/-- `types.Content(parts, role=...)`. -/
structure Content where
  parts : List Part
  role : String
deriving DecidableEq

/-- One entry of a list-shaped message content: a dict with a `"type"` tag.
Tags other than `"text"` and `"image_url"` are grouped in `other`. -/
inductive ContentEntry where
  | text (text : String)
  | image_url (url : String)
  | other (tag : String)
deriving DecidableEq

/-- A host message's `"content"` value: either a plain string or a list
of tagged entries. -/
inductive MsgContent where
  | str (s : String)
  | list (entries : List ContentEntry)
deriving DecidableEq

/-- A host chat message. -/
structure Message where
  role : String
  content : MsgContent
deriving DecidableEq

/-- The constant tool the source always attaches
(`types.Tool(google_search=types.GoogleSearchRetrieval)`). -/
inductive Tool where
  | google_search_retrieval
deriving DecidableEq

/-- `types.GenerateContentConfig(...)` as filled in by the source. -/
structure GenerateContentConfig where
  temperature : ℚ
  top_p : ℚ
  top_k : ℚ
  max_output_tokens : ℚ
  stop_sequences : List String
  system_instruction : Option MsgContent
  tools : List Tool
deriving DecidableEq

/-- The request body dict: only the keys the source reads, each optional. -/
structure Body where
  temperature : Option ℚ
  top_p : Option ℚ
  top_k : Option ℚ
  max_tokens : Option ℚ
  stop : Option (List String)
  stream : Option Bool
deriving DecidableEq

/-- A body in which every option is absent. -/
def emptyBody : Body :=
  { temperature := none, top_p := none, top_k := none, max_tokens := none,
    stop := none, stream := none }

/-- The valves object. -/
structure Valves where
  GOOGLE_API_KEY : String
  USE_PERMISSIVE_SAFETY : Bool
deriving DecidableEq

/-! ## Streaming response data (provider side) -/

/-- A grounding reference's `web` attribution. -/
structure Web where
  title : String
  uri : String
deriving DecidableEq

/-- One grounding reference of a chunk's grounding metadata. -/
structure GroundingChunk where
  web : Web
deriving DecidableEq

/-- `grounding_metadata`: its `grounding_chunks` list may itself be absent. -/
structure GroundingMetadata where
  grounding_chunks : Option (List GroundingChunk)
deriving DecidableEq

/-- One response candidate: its accumulated text and optional grounding
metadata. -/
structure Candidate where
  text : String
  grounding_metadata : Option GroundingMetadata
deriving DecidableEq

/-- One streamed response chunk, carrying its candidates. -/
structure Chunk where
  candidates : List Candidate
deriving DecidableEq

/-- `chunk.text` in the SDK concatenates the text parts of the first
candidate and is `None` when there are no candidates; modelled as the
first candidate's text, empty when there is no candidate. -/
def Chunk.text (c : Chunk) : String :=
  match c.candidates with
  | [] => ""
  | cand :: _ => cand.text

/-- What the provider's stream delivers to the iterating consumer: the
chunks it yields in order, then optionally an exception raised by the
underlying iterator after them. -/
structure StreamData where
  chunks : List Chunk
  terminal_error : Option String
deriving DecidableEq

/-- A listed provider model (`client.models.list()` element). -/
structure ProviderModel where
  name : String
  display_name : String
  supported_actions : List String
deriving DecidableEq

/-- One entry of `self.pipelines`. -/
structure PipelineEntry where
  id : String
  name : String
deriving DecidableEq

/-- The request handed to a provider call. -/
structure GenRequest where
  model : String
  contents : List Content
  config : GenerateContentConfig

/-- The provider as seen through the SDK client: each call either
returns or raises.  `generate_content` directly yields the response
text (`response.text`); `generate_content_stream` yields the stream. -/
structure Provider where
  generate_content : GenRequest → Except String String
  generate_content_stream : GenRequest → Except String StreamData

/-- What `pipe` hands back to the host: either a string (response text
or error message) or the unconsumed stream generator. -/
inductive PipeResult where
  | text (s : String)
  | stream (data : StreamData)
deriving DecidableEq

/-! ## update_pipelines (source lines 61-86) -/

/-- `Pipeline.update_pipelines`, with the outcome of
`self.client.models.list()` supplied as an `Except`. -/
def update_pipelines (google_api_key : String)
    (listResult : Except String (List ProviderModel)) : List PipelineEntry :=
  if google_api_key = "" then []
  else
    match listResult with
    | Except.ok models =>
        (models.filter (fun model =>
            model.supported_actions.contains "generateContent" &&
            pyTake model.name 7 == "models/")).map
          (fun model => { id := pyDrop model.name 7, name := model.display_name })
    | Except.error _ =>
        [{ id := "error",
           name := "Could not fetch models from Google, please update the API Key in the valves." }]

/-! ## Request normalization (source lines 96-139) -/

/-- Source lines 96-98: strip 12 characters when the id starts with
`"google_genai."`, then `lstrip(".")`. -/
def normalizeModelId (model_id : String) : String :=
  lstripDot (if startswith model_id "google_genai." then pyDrop model_id 12 else model_id)

/-- Source line 106: the first system message's content, if any. -/
def extractSystem (messages : List Message) : Option MsgContent :=
  (messages.find? (fun msg => msg.role == "system")).map Message.content

/-- Source lines 113-122: the inner loop over a list-shaped content.
A `data:image` URL is split on every comma and index `[1]` is taken,
raising `IndexError` when the URL has no comma; unrecognized `type`
tags are skipped. -/
def buildParts : List ContentEntry → Except String (List Part)
  | [] => Except.ok []
  | ContentEntry.text t :: rest =>
      match buildParts rest with
      | Except.error e => Except.error e
      | Except.ok tail => Except.ok (Part.from_text t :: tail)
  | ContentEntry.image_url image_url :: rest =>
      if startswith image_url "data:image" then
        match (pySplitComma image_url)[1]? with
        | none => Except.error "list index out of range"
        | some image_data =>
            match buildParts rest with
            | Except.error e => Except.error e
            | Except.ok tail =>
                Except.ok (Part.from_uri image_data (some "image/jpeg") :: tail)
      else
        match buildParts rest with
        | Except.error e => Except.error e
        | Except.ok tail => Except.ok (Part.from_uri image_url none :: tail)
  | ContentEntry.other _ :: rest => buildParts rest

/-- Source lines 111-125: the parts of one message's content. -/
def partsOfContent : MsgContent → Except String (List Part)
  | MsgContent.str s => Except.ok [Part.from_text s]
  | MsgContent.list entries => buildParts entries

/-- Source lines 108-125: the `contents` list, skipping system messages,
one `Content` per remaining message, with the two-party role collapse. -/
def buildContents : List Message → Except String (List Content)
  | [] => Except.ok []
  | message :: rest =>
      if message.role = "system" then buildContents rest
      else
        match partsOfContent message.content with
        | Except.error e => Except.error e
        | Except.ok parts =>
            match buildContents rest with
            | Except.error e => Except.error e
            | Except.ok tail =>
                Except.ok ({ parts := parts,
                             role := if message.role = "user" then "user" else "model" } :: tail)

/-- Source lines 129-139: the generation config, each option defaulted
independently from the body. -/
def buildConfig (body : Body) (system_message : Option MsgContent) :
    GenerateContentConfig :=
  { temperature := body.temperature.getD 0.7,
    top_p := body.top_p.getD 0.9,
    top_k := body.top_k.getD 40,
    max_output_tokens := body.max_tokens.getD 8192,
    stop_sequences := body.stop.getD [],
    system_instruction := system_message,
    tools := [Tool.google_search_retrieval] }

/-! ## pipe (source lines 88-162) -/

/-- The body of the `try` block of `Pipeline.pipe` (source lines 95-155):
any `Except.error` it produces is an exception reaching the `except`
handler. -/
def pipeTry (provider : Provider) (model_id : String) (messages : List Message)
    (body : Body) : Except String PipeResult :=
  if startswith (normalizeModelId model_id) "gemini-" = false then
    Except.ok (PipeResult.text
      ("Error: Invalid model name format: " ++ normalizeModelId model_id))
  else
    match buildContents messages with
    | Except.error e => Except.error e
    | Except.ok contents =>
        if body.stream.getD false then
          match provider.generate_content_stream
              { model := normalizeModelId model_id, contents := contents,
                config := buildConfig body (extractSystem messages) } with
          | Except.error e => Except.error e
          | Except.ok response => Except.ok (PipeResult.stream response)
        else
          match provider.generate_content
              { model := normalizeModelId model_id, contents := contents,
                config := buildConfig body (extractSystem messages) } with
          | Except.error e => Except.error e
          | Except.ok text => Except.ok (PipeResult.text text)

/-- `Pipeline.pipe` (source lines 88-162): credential short-circuit,
then the `try` block with its `except` handler converting an exception
into `"An error occurred: ..."`. -/
def pipe (valves : Valves) (provider : Provider) (user_message : String)
    (model_id : String) (messages : List Message) (body : Body) : PipeResult :=
  if valves.GOOGLE_API_KEY = "" then
    PipeResult.text "Error: GOOGLE_API_KEY is not set"
  else
    match pipeTry provider model_id messages body with
    | Except.ok r => r
    | Except.error e => PipeResult.text ("An error occurred: " ++ e)

/-! ## stream_response (source lines 164-174) -/

/-- One rendered citation line. -/
def citationLine (g : GroundingChunk) : String :=
  "\nSource: [" ++ g.web.title ++ "](" ++ g.web.uri ++ ")"

/-- Source lines 168-172: the `sources` accumulator for one chunk, built
from `chunk.candidates[0].grounding_metadata.grounding_chunks` by
successive `+=`. -/
def sourcesOf (c : Chunk) : String :=
  match c.candidates with
  | [] => ""
  | cand :: _ =>
      match cand.grounding_metadata with
      | none => ""
      | some gm =>
          match gm.grounding_chunks with
          | none => ""
          | some gcs => gcs.foldl (fun acc g => acc ++ citationLine g) ""

/-- `Pipeline.stream_response` (source lines 164-174): one yield per
chunk with truthy text. -/
def stream_response : List Chunk → List String
  | [] => []
  | chunk :: rest =>
      if chunk.text != "" then (chunk.text ++ sourcesOf chunk) :: stream_response rest
      else stream_response rest

/-- Iterating the generator `pipe` returned in stream mode: the yielded
strings, then the exception (if any) the provider stream raises, which
`stream_response` does not catch. -/
def consumeStream (d : StreamData) : List String × Option String :=
  (stream_response d.chunks, d.terminal_error)

/-- The fault the host observes when it consumes a `pipe` result: a
string result raises nothing; a stream raises whatever the provider
stream raises during iteration. -/
def hostFault : PipeResult → Option String
  | PipeResult.text _ => none
  | PipeResult.stream d => (consumeStream d).2

/-! ## Spec-side definitions (from the claims' words, for comparison) -/

/-- The payload as claim C1 describes it: everything after the first
comma of the URL (the claim says the header up to and including the
first comma is stripped and the remainder forwarded). -/
def specPayload (url : String) : String :=
  String.intercalate "," ((pySplitComma url).drop 1)

/-- The model-id normalization as claim C3 describes it: remove exactly
the namespace prefix `"google_genai."` when present. -/
def specStripNs (model_id : String) : String :=
  if startswith model_id "google_genai." then pyDrop model_id 13 else model_id

/-- The per-message turn used to state C6: the parts of the message's
content together with the collapsed two-party role. -/
def turnOf (message : Message) : Except String Content :=
  match partsOfContent message.content with
  | Except.error e => Except.error e
  | Except.ok parts =>
      Except.ok { parts := parts,
                  role := if message.role = "user" then "user" else "model" }

/-- The grounding references accompanying a chunk, as C4 reads them:
those of the first candidate's metadata, empty when absent. -/
def chunkRefs (c : Chunk) : List GroundingChunk :=
  match c.candidates with
  | [] => []
  | cand :: _ =>
      match cand.grounding_metadata with
      | none => []
      | some gm => gm.grounding_chunks.getD []

/-! ## Helper lemmas -/

/-- The `+=` accumulation of `sources` equals the joined citation lines
of the chunk's grounding references. -/
theorem sourcesOf_eq (c : Chunk) :
    sourcesOf c = String.join ((chunkRefs c).map citationLine) := by
  obtain ⟨cands⟩ := c
  cases cands with
  | nil => rfl
  | cons cand tailc =>
    obtain ⟨t, gmeta⟩ := cand
    cases gmeta with
    | none => rfl
    | some gm =>
      obtain ⟨gcs⟩ := gm
      cases gcs with
      | none => rfl
      | some refs =>
        simp [sourcesOf, chunkRefs, String.join, List.foldl_map]

/-- The contents loop equals one `turnOf` turn per non-system message,
in order. -/
theorem buildContents_eq_mapM (messages : List Message) :
    buildContents messages =
      (messages.filter (fun m => m.role != "system")).mapM turnOf := by
  induction messages with
  | nil => rfl
  | cons m rest ih =>
    by_cases h : m.role = "system"
    · simp [buildContents, h, List.filter_cons, ih]
    · rw [List.filter_cons]
      have hne : (m.role != "system") = true := by simp [h]
      rw [hne]
      simp only [if_true]
      rw [List.mapM_cons]
      simp only [buildContents, if_neg h]
      cases hp : partsOfContent m.content with
      | error e => simp [turnOf, hp, Bind.bind, Except.bind]
      | ok parts =>
        rw [ih]
        cases hr : ((rest.filter (fun x => x.role != "system")).mapM turnOf) with
        | error e => simp [turnOf, hp, hr, Bind.bind, Except.bind]
        | ok tail => simp [turnOf, hp, hr, Bind.bind, Except.bind, Pure.pure, Except.pure]

/-- When a conversation holds exactly one system message, `extractSystem`
finds that message's content, wherever it sits. -/
theorem extractSystem_unique (msgs : List Message) (m : Message)
    (hm : m ∈ msgs) (hrole : m.role = "system")
    (hcount : (msgs.filter (fun x => x.role == "system")).length = 1) :
    extractSystem msgs = some m.content := by
  revert hm hcount
  induction msgs with
  | nil => intro hm _; cases hm
  | cons a rest ih =>
    intro hm hcount
    by_cases ha : a.role = "system"
    · have hfind : extractSystem (a :: rest) = some a.content := by
        simp [extractSystem, List.find?_cons_of_pos, ha]
      rcases List.mem_cons.mp hm with rfl | hmem
      · exact hfind
      · exfalso
        have h1 : ((a :: rest).filter (fun x => x.role == "system")).length
            = (rest.filter (fun x => x.role == "system")).length + 1 := by
          simp [List.filter_cons, ha]
        have h0 : (rest.filter (fun x => x.role == "system")).length = 0 := by omega
        have hmem2 : m ∈ rest.filter (fun x => x.role == "system") :=
          List.mem_filter.mpr ⟨hmem, by simp [hrole]⟩
        rw [List.length_eq_zero] at h0
        rw [h0] at hmem2
        cases hmem2
    · rcases List.mem_cons.mp hm with rfl | hmem
      · exact absurd hrole ha
      · have hrec : extractSystem rest = some m.content := by
          apply ih hmem
          have : ((a :: rest).filter (fun x => x.role == "system")).length
              = (rest.filter (fun x => x.role == "system")).length := by
            simp [List.filter_cons, ha]
          omega
        simpa [extractSystem, List.find?_cons_of_neg, ha] using hrec

/-- Without a system message, `extractSystem` yields `none`. -/
theorem extractSystem_none (msgs : List Message)
    (h : ∀ m, m ∈ msgs → m.role ≠ "system") : extractSystem msgs = none := by
  have : msgs.find? (fun msg => msg.role == "system") = none :=
    List.find?_eq_none.mpr (fun a ha => by simpa using h a ha)
  simp [extractSystem, this]

/-- Filtering out system messages is idempotent. -/
theorem filter_ns_idem (msgs : List Message) :
    (msgs.filter (fun m => m.role != "system")).filter (fun m => m.role != "system") =
      msgs.filter (fun m => m.role != "system") :=
  List.filter_eq_self.mpr (fun x hx => (List.mem_filter.mp hx).2)

/-- A stream handed back by the `try` block is exactly what the provider
stream call returned: `pipeTry` wraps it in no handler. -/
theorem pipeTry_stream_src (provider : Provider) (model_id : String)
    (messages : List Message) (body : Body) (d : StreamData)
    (h : pipeTry provider model_id messages body = Except.ok (PipeResult.stream d)) :
    ∃ req, provider.generate_content_stream req = Except.ok d := by
  unfold pipeTry at h
  by_cases hg : startswith (normalizeModelId model_id) "gemini-" = false
  · rw [if_pos hg] at h
    exact absurd h (by simp)
  · rw [if_neg hg] at h
    cases hb : buildContents messages with
    | error e => rw [hb] at h; exact absurd h (by simp)
    | ok contents =>
      rw [hb] at h
      dsimp only at h
      by_cases hs : body.stream.getD false
      · rw [if_pos hs] at h
        cases hcall : provider.generate_content_stream
            { model := normalizeModelId model_id, contents := contents,
              config := buildConfig body (extractSystem messages) } with
        | error e => rw [hcall] at h; exact absurd h (by simp)
        | ok response =>
          rw [hcall] at h
          simp only [Except.ok.injEq, PipeResult.stream.injEq] at h
          exact ⟨_, by rw [hcall, h]⟩
      · rw [if_neg hs] at h
        cases hcall : provider.generate_content
            { model := normalizeModelId model_id, contents := contents,
              config := buildConfig body (extractSystem messages) } with
        | error e => rw [hcall] at h; exact absurd h (by simp)
        | ok t => rw [hcall] at h; exact absurd h (by simp)

/-- Skipping a list of only-unrecognized entries yields no parts and no
error. -/
theorem buildParts_other (tags : List String) :
    buildParts (tags.map ContentEntry.other) = Except.ok [] := by
  induction tags with
  | nil => rfl
  | cons t rest ih => simpa [buildParts] using ih

/-! ## Claims -/

/-- Claim C1, amended: an image part whose URL starts with `"data:image"`
is forwarded, with explicit MIME type `image/jpeg`, as the second
comma-separated field of the URL (index `[1]` of the comma split, which
equals everything after the first comma only when the payload holds no
further comma); a `data:image` URL with no comma at all makes
normalization fail with an index error.  A URL not starting with
`"data:image"` is forwarded as-is with no MIME type, and the two part
shapes are always distinct values. -/
theorem claim_C1 (url : String) :
    (startswith url "data:image" = true →
      (∀ payload, (pySplitComma url)[1]? = some payload →
        buildParts [ContentEntry.image_url url] =
          Except.ok [Part.from_uri payload (some "image/jpeg")]) ∧
      ((pySplitComma url)[1]? = none →
        buildParts [ContentEntry.image_url url] =
          Except.error "list index out of range")) ∧
    (startswith url "data:image" = false →
      buildParts [ContentEntry.image_url url] =
        Except.ok [Part.from_uri url none]) ∧
    (∀ payload, Part.from_uri payload (some "image/jpeg") ≠ Part.from_uri url none) := by
  refine ⟨?_, ?_, ?_⟩
  · intro hdata
    constructor
    · intro payload hp
      simp [buildParts, hdata, hp]
    · intro hp
      simp [buildParts, hdata, hp]
  · intro hdata
    simp [buildParts, hdata]
  · intro payload hne
    simp at hne

/-- Claim C1, counterexample: on the data-URI
`"data:image/png;base64,QUJD,extra"` the code forwards only `"QUJD"`
(the split's field `[1]`), not the full remainder after the first comma
(`"QUJD,extra"` = `specPayload` of the URL) that the claim describes. -/
theorem claim_C1_cex :
    buildParts [ContentEntry.image_url "data:image/png;base64,QUJD,extra"] ≠
      Except.ok [Part.from_uri (specPayload "data:image/png;base64,QUJD,extra")
        (some "image/jpeg")] ∧
    buildParts [ContentEntry.image_url "data:image/png;base64,QUJD,extra"] =
      Except.ok [Part.from_uri "QUJD" (some "image/jpeg")] := by
  constructor
  · intro h
    rw [show buildParts [ContentEntry.image_url "data:image/png;base64,QUJD,extra"] =
        Except.ok [Part.from_uri "QUJD" (some "image/jpeg")] from rfl] at h
    rw [show specPayload "data:image/png;base64,QUJD,extra" = "QUJD,extra" from rfl] at h
    injection h with h1
    injection h1 with h2 h3
    injection h2 with h4 h5
    exact absurd h4 (by decide)
  · rfl

/-- Claim C1, witness: a one-comma data-URI forwards its payload with
MIME type `image/jpeg`; a remote URL is forwarded as-is. -/
theorem claim_C1_witness :
    buildParts [ContentEntry.image_url "data:image/png;base64,QUJD"] =
      Except.ok [Part.from_uri "QUJD" (some "image/jpeg")] ∧
    buildParts [ContentEntry.image_url "https://example.com/cat.png"] =
      Except.ok [Part.from_uri "https://example.com/cat.png" none] := by
  constructor
  · exact ((claim_C1 "data:image/png;base64,QUJD").1 (by decide)).1 "QUJD" (by decide)
  · exact (claim_C1 "https://example.com/cat.png").2.1 (by decide)

/-- Claim C2, amended: every exception raised inside the synchronous
`try` block of `pipe` — including a failing non-streaming generation
call and a failing stream-creation call — is converted into the string
`"An error occurred: ..."`; but a stream result is handed to the host
exactly as the provider produced it, so an exception the provider
stream raises while it is being consumed propagates to the host. -/
theorem claim_C2 (valves : Valves) (provider : Provider)
    (user_message model_id : String) (messages : List Message) (body : Body) :
    (∀ e, valves.GOOGLE_API_KEY ≠ "" →
        pipeTry provider model_id messages body = Except.error e →
        pipe valves provider user_message model_id messages body =
          PipeResult.text ("An error occurred: " ++ e)) ∧
    (∀ d, pipe valves provider user_message model_id messages body =
          PipeResult.stream d →
        ∃ req, provider.generate_content_stream req = Except.ok d) := by
  constructor
  · intro e hkey he
    simp [pipe, hkey, he]
  · intro d hd
    by_cases hkey : valves.GOOGLE_API_KEY = ""
    · simp [pipe, hkey] at hd
    · simp only [pipe, if_neg hkey] at hd
      cases ht : pipeTry provider model_id messages body with
      | error e => rw [ht] at hd; simp at hd
      | ok r =>
        rw [ht] at hd
        dsimp only at hd
        exact pipeTry_stream_src provider model_id messages body d (hd ▸ ht)

/-- Claim C2, counterexample: a streaming dispatch whose provider stream
raises `"connection reset"` during consumption makes the host observe
that raised fault — it is not converted into an error string, refuting
the claim that no exception is ever propagated to the host. -/
theorem claim_C2_cex :
    hostFault (pipe { GOOGLE_API_KEY := "k", USE_PERMISSIVE_SAFETY := false }
      { generate_content := fun _ => Except.ok "ok",
        generate_content_stream := fun _ =>
          Except.ok { chunks := [], terminal_error := some "connection reset" } }
      "hi" "gemini-pro" [] { emptyBody with stream := some true }) =
      some "connection reset" := rfl

/-- Claim C2, witness: a failing non-streaming generation call comes
back as the error string. -/
theorem claim_C2_witness :
    pipe { GOOGLE_API_KEY := "k", USE_PERMISSIVE_SAFETY := false }
      { generate_content := fun _ => Except.error "boom",
        generate_content_stream := fun _ => Except.error "boom" }
      "hi" "gemini-pro" [] emptyBody =
      PipeResult.text ("An error occurred: " ++ "boom") :=
  (claim_C2 (Valves.mk "k" false)
    (Provider.mk (fun _ => Except.error "boom") (fun _ => Except.error "boom"))
    "hi" "gemini-pro" [] emptyBody).1 "boom" (by decide) (by rfl)

/-- Claim C3, amended: dispatch normalizes the model id by removing its
first 12 characters when it starts with `"google_genai."` and then
stripping every remaining leading dot; whenever the normalized id does
not start with `"gemini-"`, dispatch returns the error string as a
value, for every provider — hence without any generation call. -/
theorem claim_C3 (valves : Valves) (provider : Provider)
    (user_message model_id : String) (messages : List Message) (body : Body)
    (hkey : valves.GOOGLE_API_KEY ≠ "")
    (hbad : startswith (normalizeModelId model_id) "gemini-" = false) :
    pipe valves provider user_message model_id messages body =
      PipeResult.text ("Error: Invalid model name format: " ++ normalizeModelId model_id) := by
  simp [pipe, hkey, pipeTry, hbad]

/-- Claim C3, counterexample: on `"google_genai..gemini-pro"` removing
the namespace prefix leaves `".gemini-pro"`, which does not start with
`"gemini-"`, so the claim requires the invalid-model error with no
network call; the code instead proceeds and returns whatever the
provider generates (the result depends on the provider). -/
theorem claim_C3_cex :
    (¬ startswith (specStripNs "google_genai..gemini-pro") "gemini-" = true) ∧
    pipe { GOOGLE_API_KEY := "k", USE_PERMISSIVE_SAFETY := false }
      { generate_content := fun _ => Except.ok "hello",
        generate_content_stream := fun _ => Except.error "x" }
      "hi" "google_genai..gemini-pro" [] emptyBody = PipeResult.text "hello" ∧
    pipe { GOOGLE_API_KEY := "k", USE_PERMISSIVE_SAFETY := false }
      { generate_content := fun _ => Except.ok "other",
        generate_content_stream := fun _ => Except.error "x" }
      "hi" "google_genai..gemini-pro" [] emptyBody = PipeResult.text "other" :=
  ⟨by decide, rfl, rfl⟩

/-- Claim C3, witness: `"gpt-4"` is rejected with the invalid-model
error string. -/
theorem claim_C3_witness :
    pipe { GOOGLE_API_KEY := "k", USE_PERMISSIVE_SAFETY := false }
      { generate_content := fun _ => Except.ok "hello",
        generate_content_stream := fun _ => Except.error "x" }
      "hi" "gpt-4" [] emptyBody =
      PipeResult.text ("Error: Invalid model name format: " ++ normalizeModelId "gpt-4") :=
  claim_C3 (Valves.mk "k" false)
    (Provider.mk (fun _ => Except.ok "hello") (fun _ => Except.error "x"))
    "hi" "gpt-4" [] emptyBody (by decide) (by decide)

/-- Claim C4: the streaming adapter yields exactly one output per chunk
with non-empty text, in emission order, suppressing empty-text chunks;
each yielded value is the chunk's text followed by one
`"\nSource: [title](uri)"` line per grounding reference accompanying
the chunk, in the provider's order, and nothing when there are none. -/
theorem claim_C4 (chunks : List Chunk) :
    stream_response chunks =
      (chunks.filter (fun c => c.text != "")).map
        (fun c => c.text ++ String.join ((chunkRefs c).map citationLine)) := by
  induction chunks with
  | nil => rfl
  | cons c rest ih =>
    cases h : (c.text != "") with
    | true => simp [stream_response, List.filter_cons, h, ih, sourcesOf_eq]
    | false => simp [stream_response, List.filter_cons, h, ih]

/-- Claim C5: with exactly one system message, at any position, its
content becomes the generation config's system instruction and the
message contributes nothing to the contents sequence; with no system
message the system instruction is `none`. -/
theorem claim_C5 (msgs : List Message) :
    (∀ m, m ∈ msgs → m.role = "system" →
        (msgs.filter (fun x => x.role == "system")).length = 1 →
        extractSystem msgs = some m.content ∧
        (∀ body, (buildConfig body (extractSystem msgs)).system_instruction =
            some m.content) ∧
        buildContents msgs = buildContents (msgs.filter (fun x => x.role != "system"))) ∧
    ((∀ m, m ∈ msgs → m.role ≠ "system") → extractSystem msgs = none) := by
  constructor
  · intro m hm hrole hcount
    have hx := extractSystem_unique msgs m hm hrole hcount
    refine ⟨hx, fun body => by simp [buildConfig, hx], ?_⟩
    rw [buildContents_eq_mapM, buildContents_eq_mapM (msgs.filter (fun x => x.role != "system")),
      filter_ns_idem]
  · exact extractSystem_none msgs

/-- Claim C5, witness: a system message in second position is extracted. -/
theorem claim_C5_witness :
    extractSystem [Message.mk "user" (MsgContent.str "hi"),
                   Message.mk "system" (MsgContent.str "be nice")] =
      some (MsgContent.str "be nice") :=
  ((claim_C5 [Message.mk "user" (MsgContent.str "hi"),
      Message.mk "system" (MsgContent.str "be nice")]).1
    (Message.mk "system" (MsgContent.str "be nice")) (by decide) rfl (by decide)).1

/-- Claim C6: the contents are one turn per non-system message, in the
original order, and each turn's role is `"user"` for a user message and
`"model"` for every other non-system role. -/
theorem claim_C6 (messages : List Message) :
    buildContents messages =
      (messages.filter (fun m => m.role != "system")).mapM turnOf ∧
    (∀ m, turnOf m = (partsOfContent m.content).map
        (fun parts => Content.mk parts (if m.role = "user" then "user" else "model"))) := by
  refine ⟨buildContents_eq_mapM messages, ?_⟩
  intro m
  unfold turnOf
  cases hp : partsOfContent m.content with
  | error e => simp [Except.map]
  | ok parts => simp [Except.map]

/-- Claim C7: with every option absent the generation config carries
exactly temperature 0.7, top_p 0.9, top_k 40, max_output_tokens 8192
and empty stop_sequences, and each option is defaulted independently
from its own body key. -/
theorem claim_C7 (body : Body) (system_message : Option MsgContent) :
    buildConfig emptyBody system_message =
      { temperature := 0.7, top_p := 0.9, top_k := 40, max_output_tokens := 8192,
        stop_sequences := [], system_instruction := system_message,
        tools := [Tool.google_search_retrieval] } ∧
    (buildConfig body system_message).temperature = body.temperature.getD 0.7 ∧
    (buildConfig body system_message).top_p = body.top_p.getD 0.9 ∧
    (buildConfig body system_message).top_k = body.top_k.getD 40 ∧
    (buildConfig body system_message).max_output_tokens = body.max_tokens.getD 8192 ∧
    (buildConfig body system_message).stop_sequences = body.stop.getD [] :=
  ⟨rfl, rfl, rfl, rfl, rfl, rfl⟩

/-- Claim C8: with no credential, the catalog refresh yields an empty
model list whatever the provider would answer, and `pipe` returns the
fixed credential error for every provider — hence without contacting
it. -/
theorem claim_C8 (safety : Bool) :
    (∀ listResult, update_pipelines "" listResult = []) ∧
    (∀ provider user_message model_id messages body,
      pipe (Valves.mk "" safety) provider user_message model_id messages body =
        PipeResult.text "Error: GOOGLE_API_KEY is not set") :=
  ⟨fun _ => rfl, fun _ _ _ _ _ => rfl⟩

/-- Claim C9: with a credential configured, a failing model-list query
degrades the catalog to the single sentinel entry with id `"error"` and
the fixed operator-facing display name. -/
theorem claim_C9 (google_api_key : String) (hkey : google_api_key ≠ "") (e : String) :
    update_pipelines google_api_key (Except.error e) =
      [PipelineEntry.mk "error"
        "Could not fetch models from Google, please update the API Key in the valves."] := by
  simp [update_pipelines, hkey]

/-- Claim C9, witness: concrete failing query. -/
theorem claim_C9_witness :
    update_pipelines "k" (Except.error "boom") =
      [PipelineEntry.mk "error"
        "Could not fetch models from Google, please update the API Key in the valves."] :=
  claim_C9 "k" (by decide) "boom"

/-- Claim C10: an entry whose tag is neither `"text"` nor `"image_url"`
is silently skipped, and a non-system message whose list content holds
only unrecognized entries still contributes a turn with an empty parts
list, with no rejection and no error. -/
theorem claim_C10 (tag : String) (entries : List ContentEntry) (tags : List String)
    (role : String) (hrole : role ≠ "system") :
    buildParts (ContentEntry.other tag :: entries) = buildParts entries ∧
    buildContents [Message.mk role (MsgContent.list (tags.map ContentEntry.other))] =
      Except.ok [Content.mk [] (if role = "user" then "user" else "model")] := by
  refine ⟨rfl, ?_⟩
  simp [buildContents, hrole, partsOfContent, buildParts_other]

/-- Claim C10, witness: a user message holding only an
`"input_audio"`-tagged entry yields one turn with no parts. -/
theorem claim_C10_witness :
    buildParts [ContentEntry.other "input_audio"] = buildParts [] ∧
    buildContents [Message.mk "user" (MsgContent.list [ContentEntry.other "input_audio"])] =
      Except.ok [Content.mk [] "user"] := by
  have h := claim_C10 "input_audio" [] ["input_audio"] "user" (by decide)
  simpa using h

end GoogleManifold
